import Mathlib

/-
Verification development for the `dst` repository (src/main.rs): a
deterministic fault-injection harness ("SimulatIOn") around a small
ingestion pipeline.  The definitions below are a shallow embedding of the
Rust source:

* UTF-8 byte strings are modelled as `List Char` (every payload in the
  program is ASCII, so byte length and char length coincide);
* the seeded ChaCha8 PRNG is modelled as an abstract deterministic stream
  of raw natural-number draws (`Rng`): each `gen_bool` / `gen_range` call
  consumes exactly one draw and is a fixed function of it.  No theorem in
  this file depends on the numeric value of a fault probability, only on
  the facts that draws are deterministic and that each fallible operation
  consumes exactly one draw, which is what the Rust code guarantees;
* Rust panics (failed `assert!`, out-of-bounds slice, integer underflow in
  a slice bound, `.unwrap()` on `Err`) are modelled as explicit `panic`
  outcomes of the embedded functions;
* fallible operations return `Except Errors` values exactly as the source
  returns `Result<_, Errors>`.
-/

/-- Strings / byte buffers of the program, modelled as char lists. -/
abbrev Str := List Char

/-- The `Errors` enum of src/main.rs. -/
inductive Errors
  | KafkaConnectionError
  | NoKafkaMessage
  | RedisConnectionError
  | RedisKeyRetrievalError
  | FileOpenError
  | FileReadError
  | FileWriteError
  | FileSyncError
deriving DecidableEq, Repr

/-- The `FaultType` enum of src/main.rs (faults of the `SimulatedIO` facade). -/
inductive FaultType
  | KafkaConnectionFailure
  | KafkaReadFailure
  | RedisConnectionFailure
  | RedisReadFailure
  | FileOpenFailure
  | FileWriteFailure
deriving DecidableEq

/-- The `FileFaultType` enum of src/main.rs (faults of the `SimulatedFile`). -/
inductive FileFaultType
  | FileReadFailure
  | FileWriteFailure
  | FileSizeExceededFailure
  | FileMetadataSyncFailure
deriving DecidableEq

/--
Deterministic PRNG state standing in for `ChaCha8Rng`.  `draw` is the raw
stream of outputs (a pure function of the seed in the real code), `idx` is
how many draws have been consumed.  Cloning the structure clones the
stream, exactly as `ChaCha8Rng: Clone` does.
-/
structure Rng where
  draw : Nat → Nat
  idx : Nat

/-- One `gen_bool(p)` call: consumes one draw, returns a boolean that is a
fixed function of it.  (The Rust code compares a uniform f64 with the
probability; only determinism and draw-count matter for the claims.) -/
def genBool (r : Rng) : Bool × Rng :=
  (decide (r.draw r.idx % 10 = 0), ⟨r.draw, r.idx + 1⟩)

/-- One `gen_range(lo..hi)` call (`hi > lo` at every call site in the
program): consumes one draw and returns a value in `[lo, hi)`. -/
def genRange (lo hi : Nat) (r : Rng) : Nat × Rng :=
  (lo + r.draw r.idx % (hi - lo), ⟨r.draw, r.idx + 1⟩)

/-- The stream of a seeded PRNG: a fixed deterministic function of the
seed, standing in for `ChaCha8Rng::seed_from_u64`. -/
def rngOfSeed (seed : Nat) : Rng :=
  ⟨fun i => (seed * 48271 + i * 16807 + 11) % 4294967296, 0⟩

/--
`splitNl s = (segs, last)`: `segs` are the maximal `'\n'`-free segments of
`s` that are terminated by a `'\n'`, in order; `last` is the remainder
after the final `'\n'`.
-/
def splitNl : Str → List Str × Str
  | [] => ([], [])
  | c :: cs =>
    let p := splitNl cs
    if c = '\n' then ([] :: p.1, p.2)
    else
      match p.1 with
      | [] => ([], c :: p.2)
      | l :: ls => ((c :: l) :: ls, p.2)

/-- Strip one trailing `'\r'`, as Rust's `str::lines` does on
`"\r\n"`-terminated lines. -/
def stripTrailingCR (l : Str) : Str :=
  match l.reverse with
  | '\r' :: rest => rest.reverse
  | _ => l

/-- Rust's `str::lines()`: split at `'\n'`, strip a `'\r'` from
`'\n'`-terminated segments, keep a nonempty final segment verbatim. -/
def rustLines (s : Str) : List Str :=
  let p := splitNl s
  p.1.map stripTrailingCR ++ (if p.2 = [] then [] else [p.2])

/-- `l[l.len() - n ..]` for `n ≤ l.length`: the last `n` elements. -/
def lastN {α : Type} (n : Nat) (l : List α) : List α :=
  l.drop (l.length - n)

/--
The `SimulatedFile` struct of src/main.rs.  The `inner: RealFile` field is
omitted: none of the four `File` methods of `SimulatedFile` ever touches
it.  The `fault_probabilities` table maps every `FileFaultType` to `0.1`
and is never mutated, so `should_inject_fault` always performs exactly one
`gen_bool` draw; the table is therefore not part of the state.
-/
structure SimFile where
  rng : Rng
  file_contents : Str
  synced_contents : Str
  current_file_size : Nat
  max_file_size : Nat
  read_position : Nat
  write_position : Nat

/-- `SimulatedFile::new`: empty buffers, zero cursors, and notably
`max_file_size: 0`. -/
def SimFile.new (rng : Rng) : SimFile :=
  { rng := rng
    file_contents := []
    synced_contents := []
    current_file_size := 0
    max_file_size := 0
    read_position := 0
    write_position := 0 }

/-- Outcome of a `SimulatedFile` operation: a `Result` value together with
the successor state, or a Rust panic. -/
inductive FRes (α : Type)
  | ok (a : α) (st : SimFile)
  | err (e : Errors) (st : SimFile)
  | panic

/-- The state after the single `should_inject_fault` draw of an operation. -/
def SimFile.bump (st : SimFile) : SimFile :=
  { st with rng := (genBool st.rng).2 }

/--
`SimulatedFile::read`: one fault draw; on no fault, `assert!(size <
self.file_contents.len())` (panic on violation), then the slice
`file_contents[read_position .. read_position + size]` (panic when it
overruns the buffer), advancing the read cursor.
-/
def SimFile.read (st : SimFile) (size : Nat) : FRes Str :=
  if (genBool st.rng).1 then .err .FileReadError st.bump
  else if size < st.file_contents.length then
    if st.read_position + size ≤ st.file_contents.length then
      .ok ((st.file_contents.drop st.read_position).take size)
        { st.bump with read_position := st.read_position + size }
    else .panic
  else .panic

/-- `copy_from_slice` into `l[p .. p + d.length]` (caller has checked the
range is in bounds). -/
def writeAt (l : Str) (p : Nat) (d : Str) : Str :=
  l.take p ++ d ++ l.drop (p + d.length)

/--
`SimulatedFile::write`: one fault draw; on no fault, fail with
`FileWriteError` when `current_file_size + |data| > max_file_size`;
otherwise copy the bytes over `file_contents[write_position ..
write_position + |data|]` — a Rust panic when that slice overruns the
buffer, since `Vec` indexing does not extend the vector — and advance the
write cursor and size.
-/
def SimFile.write (st : SimFile) (data : Str) : FRes Nat :=
  if (genBool st.rng).1 then .err .FileWriteError st.bump
  else if st.current_file_size + data.length > st.max_file_size then
    .err .FileWriteError st.bump
  else if st.write_position + data.length ≤ st.file_contents.length then
    .ok data.length
      { st.bump with
        file_contents := writeAt st.file_contents st.write_position data
        write_position := st.write_position + data.length
        current_file_size := st.current_file_size + data.length }
  else .panic

/-- `SimulatedFile::fsync`: copies the unsynced buffer into the synced
buffer; never fails and consumes no draw. -/
def SimFile.fsync (st : SimFile) : FRes Unit :=
  .ok () { st with synced_contents := st.file_contents }

/-- `SimulatedFile::read_last_n_entries`: `lines().rev().take(n)` over the
in-memory contents — note there is no final reversal, unlike
`RealFile::read_last_n_entries`.  Consumes no draw, never fails. -/
def SimFile.read_last_n_entries (st : SimFile) (n : Nat) : FRes (List Str) :=
  .ok ((rustLines st.file_contents).reverse.take n) st

/-- The `Result` error of an operation outcome, when there is one. -/
def FRes.errOf {α : Type} : FRes α → Option Errors
  | .err e _ => some e
  | _ => none

/-- The `Result` success value of an operation outcome, when there is one. -/
def FRes.valOf {α : Type} : FRes α → Option α
  | .ok a _ => some a
  | _ => none

/--
The chunked tail-read loop of `RealFile::read_last_n_entries`, as a pure
function of the file contents: while `position > 0` and the accumulated
buffer holds at most `n` newlines, read `min(position, 1024)` bytes ending
at `position` and splice them in front of the buffer.
-/
def chunkLoopAux (file : Str) (n : Nat) : Nat → Nat → Str → Str
  | 0, _, buffer => buffer
  | fuel + 1, pos, buffer =>
    if 0 < pos ∧ (buffer.filter (fun c => c = '\n')).length ≤ n then
      let readSize := min pos 1024
      chunkLoopAux file n fuel (pos - readSize)
        (((file.drop (pos - readSize)).take readSize) ++ buffer)
    else buffer

/-- The loop with `pos` itself as fuel: each iteration lowers `pos` by
`min pos 1024 ≥ 1`, so `pos` rounds of fuel always suffice and the fuel
never cuts the loop short. -/
def chunkLoop (file : Str) (n : Nat) (pos : Nat) (buffer : Str) : Str :=
  chunkLoopAux file n pos pos buffer

/-- `RealFile::read_last_n_entries` on given file contents: chunked tail
read, then `lines().rev().take(n) ... .rev()` — last `n` lines in append
order. -/
def realReadLastN (file : Str) (n : Nat) : List Str :=
  ((rustLines (chunkLoop file n file.length [])).reverse.take n).reverse

/-- One call through the `File` trait on the simulated file. -/
inductive FileOp
  | fread (n : Nat)
  | fwrite (s : Str)
  | ffsync
  | ftail (n : Nat)

/-- Apply one `File` operation; `none` when the operation panics. -/
def applyOp (st : SimFile) : FileOp → Option SimFile
  | .fread n =>
    match st.read n with
    | .ok _ s => some s
    | .err _ s => some s
    | .panic => none
  | .fwrite s =>
    match st.write s with
    | .ok _ s' => some s'
    | .err _ s' => some s'
    | .panic => none
  | .ffsync =>
    match st.fsync with
    | .ok _ s => some s
    | .err _ s => some s
    | .panic => none
  | .ftail n =>
    match st.read_last_n_entries n with
    | .ok _ s => some s
    | .err _ s => some s
    | .panic => none

/-- Run a sequence of `File` operations; `none` once any of them panics. -/
def runOps (st : SimFile) : List FileOp → Option SimFile
  | [] => some st
  | op :: ops =>
    match applyOp st op with
    | some st' => runOps st' ops
    | none => none

/--
The `SimulatedIO` struct of src/main.rs.  As for `SimFile`, the
`fault_probabilities` table maps every `FaultType` to `0.1` and is never
mutated, so each `should_inject_fault` call is exactly one `gen_bool`
draw.  The `SimulatedClock` is its `current_time` in milliseconds.  The
`redis_data` hash map is an association list.
-/
structure Simulator where
  rng : Rng
  kafka_messages : List Str
  kafka_attempts : Nat
  kafka_failures : Nat
  redis_data : List (Str × Str)
  file : Option SimFile
  clock : Nat

/-- `SimulatedIO::new(seed)`: seed the PRNG, draw `kafka_failures` from
`gen_range(1..5)`, install the three canned payloads and the one canned
config key. -/
def Simulator.new (seed : Nat) : Simulator :=
  let r0 := rngOfSeed seed
  let p := genRange 1 5 r0
  { rng := p.2
    kafka_messages :=
      ["simulated_message_1".toList, "simulated_message_2".toList,
       "simulated_message_3".toList]
    kafka_attempts := 0
    kafka_failures := p.1
    redis_data := [("config_key".toList, "simulated_config_value".toList)]
    file := none
    clock := 0 }

/--
`SimulatedIO::create_kafka_consumer`: increment `kafka_attempts`, then one
fault draw; fail with `KafkaConnectionError` only when the draw fires AND
`kafka_attempts <= kafka_failures`.  (The 50 ms `tokio::time::sleep` on
the success path is real wall time, not the simulated clock, and changes
no state.)
-/
def Simulator.create_kafka_consumer (io : Simulator) :
    Except Errors Unit × Simulator :=
  if (genBool io.rng).1 = true ∧ io.kafka_attempts + 1 ≤ io.kafka_failures then
    (Except.error Errors.KafkaConnectionError,
     { io with kafka_attempts := io.kafka_attempts + 1, rng := (genBool io.rng).2 })
  else
    (Except.ok (),
     { io with kafka_attempts := io.kafka_attempts + 1, rng := (genBool io.rng).2 })

/-- `SimulatedIO::connect_to_redis`: one fault draw. -/
def Simulator.connect_to_redis (io : Simulator) :
    Except Errors Unit × Simulator :=
  let p := genBool io.rng
  let io1 := { io with rng := p.2 }
  if p.1 then (Except.error Errors.RedisConnectionError, io1)
  else (Except.ok (), io1)

/--
`SimulatedIO::open_file`: opens the real underlying file (modelled as
succeeding; the wrapped `RealFile` is never used by any `SimulatedFile`
method) and wraps a fresh `SimulatedFile` around a CLONE of the current
PRNG.  Note: no `should_inject_fault` call and no draw is consumed —
`FaultType::FileOpenFailure` sits in the probability table but is never
drawn.
-/
def Simulator.open_file (io : Simulator) : Except Errors Unit × Simulator :=
  (Except.ok (), { io with file := some (SimFile.new io.rng) })

/-- `SimulatedIO::read_kafka_message`: one fault draw; on no fault,
`assert!(kafka_messages.len() > 0)` then `choose` — one `gen_range` draw
picking a canned payload. -/
def Simulator.read_kafka_message (io : Simulator) :
    Option (Except Errors (Option Str) × Simulator) :=
  let p := genBool io.rng
  let io1 := { io with rng := p.2 }
  if p.1 then some (Except.error Errors.NoKafkaMessage, io1)
  else if 0 < io1.kafka_messages.length then
    let q := genRange 0 io1.kafka_messages.length io1.rng
    let io2 := { io1 with rng := q.2 }
    some (Except.ok (some (io1.kafka_messages.getD (q.1 % io1.kafka_messages.length) [])), io2)
  else none

/-- `SimulatedIO::get_redis_config`: one fault draw; on no fault, look the
key up in the canned map, `RedisKeyRetrievalError` when absent. -/
def Simulator.get_redis_config (io : Simulator) (key : Str) :
    Except Errors Str × Simulator :=
  let p := genBool io.rng
  let io1 := { io with rng := p.2 }
  if p.1 then (Except.error Errors.RedisKeyRetrievalError, io1)
  else
    match (io1.redis_data.find? (fun kv => kv.1 = key)) with
    | some kv => (Except.ok kv.2, io1)
    | none => (Except.error Errors.RedisKeyRetrievalError, io1)

/-- `SimulatedIO::generate_jitter(base)`: `base + gen_range(0..base_ms)`
from the simulator's own seeded PRNG; Rust's `gen_range(0..0)` panics, so
the result is `none` when `base = 0` (never hit by the driver). -/
def Simulator.generate_jitter (io : Simulator) (base : Nat) :
    Option (Nat × Simulator) :=
  if base = 0 then none
  else
    let q := genRange 0 base io.rng
    some (base + q.1, { io with rng := q.2 })

/-- `SimulatedIO::sleep`: advance the simulated clock, elapse no wall
time. -/
def Simulator.sleepFor (io : Simulator) (d : Nat) : Simulator :=
  { io with clock := io.clock + d }

/-- One call through the `IO` trait, with its arguments. -/
inductive Call
  | connectKafka
  | connectRedis
  | doOpenFile
  | readKafka
  | getRedis (k : Str)
  | readFile (n : Nat)
  | writeFile (s : Str)
  | tailEntries (n : Nat)
  | jitter (d : Nat)
  | sleepFor (d : Nat)

deriving instance DecidableEq for Except

/-- The observable return value of one `IO` call (or a panic). -/
inductive Ret
  | runit (r : Except Errors Unit)
  | ropt (r : Except Errors (Option Str))
  | rstr (r : Except Errors Str)
  | rbytes (r : Except Errors Str)
  | rents (r : Except Errors (List Str))
  | rnat (r : Except Errors Nat)
  | rdur (d : Nat)
  | rpanic
deriving DecidableEq

/-- Dispatch one `IO` call on the simulated facade; `none` as the
successor state means the call panicked (unwrap on a missing file,
assertion failure, ...). -/
def stepCall (io : Simulator) : Call → Ret × Option Simulator
  | .connectKafka =>
    let p := io.create_kafka_consumer
    (.runit p.1, some p.2)
  | .connectRedis =>
    let p := io.connect_to_redis
    (.runit p.1, some p.2)
  | .doOpenFile =>
    let p := io.open_file
    (.runit p.1, some p.2)
  | .readKafka =>
    match io.read_kafka_message with
    | some p => (.ropt p.1, some p.2)
    | none => (.rpanic, none)
  | .getRedis k =>
    let p := io.get_redis_config k
    (.rstr p.1, some p.2)
  | .readFile n =>
    match io.file with
    | none => (.rpanic, none)
    | some f =>
      match f.read n with
      | .ok v f' => (.rbytes (Except.ok v), some { io with file := some f' })
      | .err e f' => (.rbytes (Except.error e), some { io with file := some f' })
      | .panic => (.rpanic, none)
  | .writeFile s =>
    match io.file with
    | none => (.rpanic, none)
    | some f =>
      match f.write s with
      | .ok v f' => (.rnat (Except.ok v), some { io with file := some f' })
      | .err e f' => (.rnat (Except.error e), some { io with file := some f' })
      | .panic => (.rpanic, none)
  | .tailEntries n =>
    match io.file with
    | none => (.rpanic, none)
    | some f =>
      match f.read_last_n_entries n with
      | .ok v f' => (.rents (Except.ok v), some { io with file := some f' })
      | .err e f' => (.rents (Except.error e), some { io with file := some f' })
      | .panic => (.rpanic, none)
  | .jitter d =>
    match io.generate_jitter d with
    | some p => (.rdur p.1, some p.2)
    | none => (.rpanic, none)
  | .sleepFor d => (.runit (Except.ok ()), some (io.sleepFor d))

/-- Run a sequence of `IO` calls, collecting the return-value trace;
execution stops at a panic. -/
def runCalls (io : Simulator) : List Call → List Ret
  | [] => []
  | c :: cs =>
    let p := stepCall io c
    p.1 ::
      (match p.2 with
       | some io' => runCalls io' cs
       | none => [])

/-- The simulator state after `k` consecutive `create_kafka_consumer`
calls (results discarded). -/
def kafkaCalls (io : Simulator) : Nat → Simulator
  | 0 => io
  | k + 1 => kafkaCalls (io.create_kafka_consumer).2 k

/-- How a retry-wrapped call site ends. -/
inductive RetryOut (ε α : Type)
  | ok (a : α)
  | surfaced (e : ε)
  | brokeErr (e : ε)
  | panicked
deriving DecidableEq

/--
The retry loop shape of `start` (broker connect, lines 619-641, and KV
connect, lines 643-661): attempt; on failure with `retries < 5` sleep
`jitter(delay) = delay + U(0, delay_ms)` and double the delay; on failure
with `retries == 5` surface the error.  `op i` is the result of the
`(i+1)`-th attempt, `u i` the raw jitter draw before it is reduced modulo
the current delay, `b` the remaining retry budget, `d` the current delay
in ms.  Returns (outcome, attempts made, total simulated sleep in ms).
-/
def retryStart {ε α : Type} (op : Nat → Except ε α) (u : Nat → Nat) :
    Nat → Nat → Nat → RetryOut ε α × Nat × Nat
  | 0, i, _ =>
    match op i with
    | .ok a => (.ok a, 1, 0)
    | .error e => (.surfaced e, 1, 0)
  | b + 1, i, d =>
    match op i with
    | .ok a => (.ok a, 1, 0)
    | .error _ =>
      let s := d + u i % d
      let rest := retryStart op u b (i + 1) (2 * d)
      (rest.1, rest.2.1 + 1, rest.2.2 + s)

/--
The retry loop shape of `run` (broker read, lines 681-703, and KV read,
lines 711-730): the same match, but followed by `if retries >=
max_retries { panic!(...) }` INSIDE the loop body, so after the failure
that brings `retries` to 5 the driver sleeps and then panics without a
sixth attempt; the error-surfacing arm (`break Err`, whose value the
caller `.unwrap()`s) is unreachable from budget 5.  `op` yields
`Ok(Some(v))`, `Ok(None)` (an immediate panic in the kafka loop), or an
error.
-/
def retryRun {ε α : Type} (op : Nat → Except ε (Option α)) (u : Nat → Nat) :
    Nat → Nat → Nat → RetryOut ε α × Nat × Nat
  | 0, i, _ =>
    match op i with
    | .ok (some a) => (.ok a, 1, 0)
    | .ok none => (.panicked, 1, 0)
    | .error e => (.brokeErr e, 1, 0)
  | 1, i, d =>
    match op i with
    | .ok (some a) => (.ok a, 1, 0)
    | .ok none => (.panicked, 1, 0)
    | .error _ => (.panicked, 1, d + u i % d)
  | b + 2, i, d =>
    match op i with
    | .ok (some a) => (.ok a, 1, 0)
    | .ok none => (.panicked, 1, 0)
    | .error _ =>
      let s := d + u i % d
      let rest := retryRun op u (b + 1) (i + 1) (2 * d)
      (rest.1, rest.2.1 + 1, rest.2.2 + s)

/-- `format!("Config: {}, Message: {}\n", cfg, msg)`. -/
def composeOutput (cfg msg : Str) : Str :=
  "Config: ".toList ++ cfg ++ ", Message: ".toList ++ msg ++ ['\n']

/-- How one iteration of the `run` work loop ends, from the point where
the kafka message and redis config have been obtained. -/
inductive StepOutcome
  | cont (counter : Nat) (written : List Str) (verified : Bool)
  | panicSlice (writtenLen : Nat)
  | panicMismatch
  | panicTailErr
deriving DecidableEq

/--
One iteration of the `run` work loop (lines 671-759) from the point where
the retry loops have produced `msg` and `cfg`: increment the counter,
compose the output line, write it.  On write error: log and continue with
the record list unchanged.  On success: push the output; every 5th
iteration read the last 5 entries back — a tail error panics, the slice
`written_messages[len - 5 ..]` panics when fewer than 5 records exist, and
a mismatch with the last 5 written records panics.  `writeRes` and
`tailRes` are the results the `IO` facade returns for this iteration's
`write_to_file` and `read_last_n_entries` calls.
-/
def runIter (counter : Nat) (written : List Str) (msg cfg : Str)
    (writeRes : Except Errors Nat) (tailRes : Except Errors (List Str)) :
    StepOutcome :=
  let c := counter + 1
  let output := composeOutput cfg msg
  match writeRes with
  | .error _ => .cont c written false
  | .ok _ =>
    let w := written ++ [output]
    if c % 5 = 0 then
      match tailRes with
      | .ok readMessages =>
        if w.length < 5 then .panicSlice w.length
        else if readMessages = lastN 5 w then .cont c w true
        else .panicMismatch
      | .error _ => .panicTailErr
    else .cont c w false

/-- The per-iteration environment of the work loop: the values produced by
the retry loops and the file results returned by the `IO` facade. -/
structure IterIn where
  msg : Str
  cfg : Str
  writeRes : Except Errors Nat
  tailRes : Except Errors (List Str)

/-- How a finite prefix of the unbounded work loop ends. -/
inductive DriverRes
  | running (counter : Nat) (written : List Str)
  | panicSlice (writtenLen : Nat)
  | panicMismatch
  | panicTailErr
deriving DecidableEq

/-- Run the work loop over a finite list of per-iteration environments. -/
def runDriver (counter : Nat) (written : List Str) : List IterIn → DriverRes
  | [] => .running counter written
  | o :: os =>
    match runIter counter written o.msg o.cfg o.writeRes o.tailRes with
    | .cont c w _ => runDriver c w os
    | .panicSlice k => .panicSlice k
    | .panicMismatch => .panicMismatch
    | .panicTailErr => .panicTailErr

/-- A PRNG stream whose next `gen_bool` draw does NOT fire (`1 % 10 ≠ 0`). -/
def rngQuiet : Rng := ⟨fun _ => 1, 0⟩

/-- A PRNG stream whose next `gen_bool` draw DOES fire (`0 % 10 = 0`). -/
def rngFiring : Rng := ⟨fun _ => 0, 0⟩

/-- A simulated file holding exactly the two records `"a"` and `"b"`,
i.e. contents `"a\nb\n"`, with a non-firing PRNG. -/
def twoRecordFile : SimFile :=
  { SimFile.new rngQuiet with file_contents := ['a', '\n', 'b', '\n'] }

/-- A fresh simulated file whose size cap has been raised to 5, isolating
the in-place copy of `write` from the `max_file_size` check. -/
def cappedFile : SimFile :=
  { SimFile.new rngQuiet with max_file_size := 5 }

/-- A simulator whose next fault draw fires. -/
def firingSimulator : Simulator :=
  { Simulator.new 0 with rng := rngFiring }

/-- Work-loop environments: four iterations whose write fails, then one
whose write succeeds (tail read returns `Ok` each time, as the simulated
file's tail read always does). -/
def fourFailOneOk : List IterIn :=
  [⟨['m'], ['c'], Except.error Errors.FileWriteError, Except.ok []⟩,
   ⟨['m'], ['c'], Except.error Errors.FileWriteError, Except.ok []⟩,
   ⟨['m'], ['c'], Except.error Errors.FileWriteError, Except.ok []⟩,
   ⟨['m'], ['c'], Except.error Errors.FileWriteError, Except.ok []⟩,
   ⟨['m'], ['c'], Except.ok 1, Except.ok []⟩]

/--
The degenerate shape every reachable `SimulatedFile` state has: because
`new` sets `max_file_size` to 0 and `write` copies in place, no operation
ever changes the buffers, cursors or sizes — only the PRNG advances.
-/
def StrongInv (st : SimFile) : Prop :=
  st.file_contents = [] ∧ st.synced_contents = [] ∧
  st.current_file_size = 0 ∧ st.max_file_size = 0 ∧
  st.read_position = 0 ∧ st.write_position = 0

/--
Claim C1 (code_bug evidence).  On a file holding the two records `"a"`
and `"b"` (contents `"a\nb\n"`), `SimulatedFile::read_last_n_entries(2)`
returns `["b", "a"]` — the last records NEWEST-FIRST, because the
`lines().rev().take(n)` chain is collected without the final reversal —
whereas `RealFile::read_last_n_entries` on the same contents returns
`["a", "b"]`, the append order that the claim, the spec invariant and the
driver's own verification comparison all require.
-/
theorem sim_tail_returns_records_reversed :
    (SimFile.read_last_n_entries twoRecordFile 2).valOf = some [['b'], ['a']] ∧
    realReadLastN ['a', '\n', 'b', '\n'] 2 = [['a'], ['b']] :=
  ⟨rfl, by decide⟩

/--
Claim C2 (code_bug evidence).  `SimulatedFile::new` fixes
`max_file_size = 0`, so with a non-firing fault draw the write of the
nonempty string `"x\n"` still returns `FileWriteError`: from the
constructed state no nonempty write can ever succeed, and the file
contents can never grow.  Moreover even when the size cap is lifted
(`cappedFile`), `write` panics on the in-place `copy_from_slice` into the
never-extended buffer instead of appending.
-/
theorem sim_write_cannot_append :
    (SimFile.new rngQuiet).max_file_size = 0 ∧
    (genBool rngQuiet).1 = false ∧
    (SimFile.write (SimFile.new rngQuiet) ['x', '\n']).errOf =
      some Errors.FileWriteError ∧
    SimFile.write cappedFile ['x'] = FRes.panic :=
  ⟨rfl, rfl, rfl, rfl⟩

/--
Claim C6 (counterexample).  On the fresh simulated file (empty buffer)
with a non-firing fault draw, `read(0)` hits `assert!(size <
file_contents.len())` — `0 < 0` fails — and PANICS; the claim says that
with `n ≥` the buffer length it "fails with a FileReadFailure error",
i.e. predicts `Err(FileReadError)`, not a panic.
-/
theorem sim_read_oversize_panics :
    (genBool rngQuiet).1 = false ∧
    SimFile.read (SimFile.new rngQuiet) 0 = FRes.panic :=
  ⟨rfl, rfl⟩

/--
Claim C6 (amended).  `SimulatedFile::read(n)`: fails with
`FileReadFailure` exactly when the injection draw fires; when the draw
does not fire and `n ≥` the buffer length it panics on the assertion
instead of returning an error; otherwise it returns the `n` bytes at the
read cursor and advances the cursor by `n` (panicking when the cursor
window overruns the buffer).
-/
theorem sim_read_behavior :
    ∀ (st : SimFile) (n : Nat),
      ((genBool st.rng).1 = true →
        st.read n = FRes.err Errors.FileReadError st.bump) ∧
      ((genBool st.rng).1 = false → st.file_contents.length ≤ n →
        st.read n = FRes.panic) ∧
      ((genBool st.rng).1 = false → n < st.file_contents.length →
        st.read_position + n ≤ st.file_contents.length →
        st.read n =
          FRes.ok ((st.file_contents.drop st.read_position).take n)
            { st.bump with read_position := st.read_position + n }) := by
  intro st n
  refine ⟨fun h => by simp [SimFile.read, h], fun h hlen => ?_, fun h hlt hpos => ?_⟩
  · simp only [SimFile.read, h, Bool.false_eq_true, if_false]
    rw [if_neg (by omega)]
  · simp only [SimFile.read, h, Bool.false_eq_true, if_false]
    rw [if_pos hlt, if_pos hpos]

/-- Claim C6 (witness): the three branches of `sim_read_behavior` at
concrete states — a firing draw errs, an oversize read on the fresh file
panics, an in-bounds read on the two-record file returns its first two
bytes. -/
theorem sim_read_behavior_witness :
    SimFile.read (SimFile.new rngFiring) 0 =
      FRes.err Errors.FileReadError (SimFile.new rngFiring).bump ∧
    SimFile.read (SimFile.new rngQuiet) 5 = FRes.panic ∧
    SimFile.read twoRecordFile 2 =
      FRes.ok ['a', '\n'] { twoRecordFile.bump with read_position := 0 + 2 } :=
  ⟨(sim_read_behavior (SimFile.new rngFiring) 0).1 (by decide),
   (sim_read_behavior (SimFile.new rngQuiet) 5).2.1 (by decide) (by decide),
   (sim_read_behavior twoRecordFile 2).2.2 (by decide) (by decide) (by decide)⟩

/--
Claim C7 (counterexample).  A simulator state whose next fault draw
fires: `open_file` still succeeds and consumes no PRNG draw at all — the
claim says the fault injector is consulted first and `FileOpenFailure`
returned when the draw fires.
-/
theorem open_file_ignores_fault_draw :
    (genBool firingSimulator.rng).1 = true ∧
    (Simulator.open_file firingSimulator).1 = Except.ok () ∧
    (Simulator.open_file firingSimulator).2.rng = firingSimulator.rng :=
  ⟨rfl, rfl, rfl⟩

/--
Claim C7 (amended).  In simulated mode `open_file` never consults the
fault injector: for every simulator state it succeeds (the underlying
real `open` is modelled as succeeding), wraps a fresh simulated file
around a clone of the current PRNG, and leaves the facade's own PRNG and
all other state untouched.  `FileOpenFailure` sits in the probability
table but is never injected.
-/
theorem open_file_never_injects :
    ∀ io : Simulator,
      Simulator.open_file io =
        (Except.ok (), { io with file := some (SimFile.new io.rng) }) :=
  fun _ => rfl

/--
Claim C3 (confirmed).  The simulated facade is deterministic: its state
is a pure function of the seed, every operation consumes PRNG draws that
are pure functions of that state, and no other input exists in the
embedding, so two simulators constructed from the same seed produce
identical return-value traces — including error-vs-success, chosen canned
payloads and panics — on identical call sequences.  (The only behavior of
the Rust code abstracted away is the success of the real OS `open` backing
`open_file`, which the spec itself excludes from the contract; the wrapped
real file is never read or written by any simulated operation.)
-/
theorem sim_trace_pure_function_of_seed :
    ∀ (seed : Nat) (cs : List Call) (io₁ io₂ : Simulator),
      io₁ = Simulator.new seed → io₂ = Simulator.new seed →
      runCalls io₁ cs = runCalls io₂ cs := by
  intro seed cs io₁ io₂ h1 h2
  rw [h1, h2]

/-- Claim C3 (witness): two runs from seed 42 over a concrete call
sequence agree. -/
theorem sim_trace_pure_function_of_seed_witness :
    runCalls (Simulator.new 42)
        [Call.connectKafka, Call.readKafka, Call.doOpenFile,
         Call.writeFile ['x'], Call.tailEntries 5] =
      runCalls (Simulator.new 42)
        [Call.connectKafka, Call.readKafka, Call.doOpenFile,
         Call.writeFile ['x'], Call.tailEntries 5] :=
  sim_trace_pure_function_of_seed 42 _ _ _ rfl rfl

/-- Both branches of `create_kafka_consumer` leave the same successor
state: `kafka_attempts` incremented and the PRNG advanced one draw. -/
theorem create_kafka_consumer_snd :
    ∀ io : Simulator,
      (Simulator.create_kafka_consumer io).2 =
        { io with kafka_attempts := io.kafka_attempts + 1,
                  rng := (genBool io.rng).2 } := by
  intro io
  unfold Simulator.create_kafka_consumer
  split <;> rfl

/-- After `k` consecutive connect calls, `kafka_attempts` has grown by
`k` and the `kafka_failures` threshold is unchanged. -/
theorem kafkaCalls_fields :
    ∀ (k : Nat) (io : Simulator),
      (kafkaCalls io k).kafka_attempts = io.kafka_attempts + k ∧
      (kafkaCalls io k).kafka_failures = io.kafka_failures := by
  intro k
  induction k with
  | zero => intro io; simp [kafkaCalls]
  | succ k ih =>
    intro io
    have h := ih (io.create_kafka_consumer).2
    rw [create_kafka_consumer_snd] at h
    simp only [kafkaCalls]
    rw [create_kafka_consumer_snd]
    constructor
    · rw [(ih _).1]; simp; omega
    · rw [(ih _).2]

/--
Claim C5 (confirmed).  (i) At construction `kafka_failures` is drawn from
`gen_range(1..5)`, so it lies in `[1, 5)`.  (ii) The injected connect
fault is gated on `kafka_attempts <= kafka_failures` AFTER the increment,
so from any simulator state — hence for every possible sequence of fault
draws — once `kafka_failures ≤ kafka_attempts + k`, the `(k+1)`-th
subsequent `create_kafka_consumer` call succeeds.  In particular, from a
fresh simulator the call numbered `kafka_failures + 1` succeeds
unconditionally.
-/
theorem kafka_connect_within_threshold :
    (∀ seed : Nat,
      1 ≤ (Simulator.new seed).kafka_failures ∧
      (Simulator.new seed).kafka_failures < 5) ∧
    (∀ (io : Simulator) (k : Nat),
      io.kafka_failures ≤ io.kafka_attempts + k →
      (Simulator.create_kafka_consumer (kafkaCalls io k)).1 = Except.ok ()) := by
  constructor
  · intro seed
    have h : ((rngOfSeed seed).draw (rngOfSeed seed).idx) % 4 < 4 :=
      Nat.mod_lt _ (by norm_num)
    simp only [Simulator.new, genRange]
    omega
  · intro io k hk
    have ha := (kafkaCalls_fields k io).1
    have hf := (kafkaCalls_fields k io).2
    unfold Simulator.create_kafka_consumer
    rw [if_neg]
    intro hcn
    rw [ha, hf] at hcn
    omega

/-- Claim C5 (witness): the fresh simulator from seed 0 has threshold 4,
and after 4 connect calls the 5th succeeds. -/
theorem kafka_connect_within_threshold_witness :
    (1 ≤ (Simulator.new 0).kafka_failures ∧
      (Simulator.new 0).kafka_failures < 5) ∧
    (Simulator.create_kafka_consumer (kafkaCalls (Simulator.new 0) 4)).1 =
      Except.ok () :=
  ⟨kafka_connect_within_threshold.1 0,
   kafka_connect_within_threshold.2 (Simulator.new 0) 4 (by decide)⟩

/--
Claim C8 (confirmed).  In a work-loop iteration, when `write_to_file`
returns an error the driver continues to the next iteration with the
in-memory record list unchanged and no verification attempted (whatever
the counter is); when it succeeds and the iteration is not a multiple of
5, the composed output has been appended to the record list.  (The
append-before-verify on multiples of 5 is the subject of
`verify_slice_bounds`.)
-/
theorem write_error_skips_record_and_verify :
    ∀ (c : Nat) (w : List Str) (m cf : Str) (tr : Except Errors (List Str)),
      (∀ e : Errors,
        runIter c w m cf (Except.error e) tr = StepOutcome.cont (c + 1) w false) ∧
      (∀ k : Nat, (c + 1) % 5 ≠ 0 →
        runIter c w m cf (Except.ok k) tr =
          StepOutcome.cont (c + 1) (w ++ [composeOutput cf m]) false) := by
  intro c w m cf tr
  refine ⟨fun e => rfl, fun k h => ?_⟩
  simp [runIter, h]

/-- Claim C8 (witness): a failing write at iteration 1 leaves the empty
record list empty; a succeeding write at iteration 1 appends the composed
output. -/
theorem write_error_skips_record_and_verify_witness :
    runIter 0 [] ['m'] ['c'] (Except.error Errors.FileWriteError)
        (Except.ok []) = StepOutcome.cont 1 [] false ∧
    runIter 0 [] ['m'] ['c'] (Except.ok 1) (Except.ok []) =
      StepOutcome.cont 1 [composeOutput ['c'] ['m']] false :=
  ⟨(write_error_skips_record_and_verify 0 [] ['m'] ['c'] (Except.ok [])).1
      Errors.FileWriteError,
   (write_error_skips_record_and_verify 0 [] ['m'] ['c'] (Except.ok [])).2
      1 (by decide)⟩

/--
Claim C10 (counterexample).  A five-iteration run in which the first four
writes fail and the fifth succeeds: iteration 5 reaches the read-back
verification step (counter multiple of 5, current write succeeded) with
only ONE record in the in-memory list, and the driver panics on the slice
`written_messages[len - 5 ..]` — refuting the claim's assertion that at
least 5 records are present whenever the verification step is reached.
-/
theorem verify_reached_with_one_record_panics :
    runDriver 0 [] fourFailOneOk = DriverRes.panicSlice 1 := by decide

/--
Claim C10 (amended).  Reaching the verification step (counter a multiple
of 5 and the current write succeeded, with the tail read returning `Ok`)
does NOT guarantee 5 records: the counter counts all iterations while the
record list holds only successful writes.  When fewer than 5 writes have
succeeded overall at that point the driver panics on the slice rather
than verifying a shorter suffix; with at least 5, the slice is in bounds
and the driver compares the read-back entries with the last 5 written
records, panicking on mismatch.
-/
theorem verify_slice_bounds :
    ∀ (c : Nat) (w : List Str) (m cf : Str) (k : Nat) (msgs : List Str),
      (c + 1) % 5 = 0 →
      ((w.length + 1 < 5 →
        runIter c w m cf (Except.ok k) (Except.ok msgs) =
          StepOutcome.panicSlice (w.length + 1)) ∧
       (5 ≤ w.length + 1 →
        runIter c w m cf (Except.ok k) (Except.ok msgs) =
          if msgs = lastN 5 (w ++ [composeOutput cf m])
          then StepOutcome.cont (c + 1) (w ++ [composeOutput cf m]) true
          else StepOutcome.panicMismatch)) := by
  intro c w m cf k msgs h5
  constructor
  · intro hlen
    simp [runIter, h5, hlen]
  · intro hlen
    have hred : runIter c w m cf (Except.ok k) (Except.ok msgs) =
        (if (c + 1) % 5 = 0 then
          (if (w ++ [composeOutput cf m]).length < 5 then
            StepOutcome.panicSlice (w ++ [composeOutput cf m]).length
           else if msgs = lastN 5 (w ++ [composeOutput cf m]) then
            StepOutcome.cont (c + 1) (w ++ [composeOutput cf m]) true
           else StepOutcome.panicMismatch)
         else StepOutcome.cont (c + 1) (w ++ [composeOutput cf m]) false) := rfl
    rw [hred, if_pos h5,
      if_neg (by simp only [List.length_append, List.length_singleton]; omega)]

/-- Claim C10 (witness): at iteration 5 with no prior record the slice
panics reporting length 1; with four prior records the comparison branch
runs on the last five written records. -/
theorem verify_slice_bounds_witness :
    runIter 4 [] ['m'] ['c'] (Except.ok 1) (Except.ok []) =
      StepOutcome.panicSlice 1 ∧
    runIter 4 [['a'], ['b'], ['d'], ['e']] ['m'] ['c'] (Except.ok 1)
        (Except.ok []) =
      (if ([] : List Str) =
          lastN 5 ([['a'], ['b'], ['d'], ['e']] ++ [composeOutput ['c'] ['m']])
       then StepOutcome.cont 5
         ([['a'], ['b'], ['d'], ['e']] ++ [composeOutput ['c'] ['m']]) true
       else StepOutcome.panicMismatch) :=
  ⟨(verify_slice_bounds 4 [] ['m'] ['c'] 1 [] (by decide)).1 (by decide),
   (verify_slice_bounds 4 [['a'], ['b'], ['d'], ['e']] ['m'] ['c'] 1 []
      (by decide)).2 (by decide)⟩

/-- A `start`-shaped retry loop with budget `b` makes at most `b + 1`
attempts. -/
theorem retryStart_attempts_le {ε α : Type} (op : Nat → Except ε α)
    (u : Nat → Nat) :
    ∀ (b i d : Nat), (retryStart op u b i d).2.1 ≤ b + 1 := by
  intro b
  induction b with
  | zero =>
    intro i d
    unfold retryStart
    cases op i <;> simp
  | succ b ih =>
    intro i d
    unfold retryStart
    cases op i with
    | ok a => simp
    | error e =>
      have h := ih (i + 1) (2 * d)
      simp only []
      omega

/-- A `start`-shaped retry loop with positive delay sleeps less than
`2·d·2^b` in total (each jittered sleep is below twice the current delay
and the delay doubles). -/
theorem retryStart_sleep_le {ε α : Type} (op : Nat → Except ε α)
    (u : Nat → Nat) :
    ∀ (b i d : Nat), 0 < d →
      (retryStart op u b i d).2.2 + 2 * d ≤ 2 * d * 2 ^ b := by
  intro b
  induction b with
  | zero =>
    intro i d hd
    unfold retryStart
    cases op i <;> simp
  | succ b ih =>
    intro i d hd
    have hm : u i % d < d := Nat.mod_lt _ hd
    have ih' := ih (i + 1) (2 * d) (by omega)
    have e1 : 2 * (2 * d) * 2 ^ b = 2 * d * 2 ^ (b + 1) := by ring
    rw [e1] at ih'
    unfold retryStart
    cases op i with
    | ok a =>
      simp only []
      have h2 : 2 * d ≤ 2 * d * 2 ^ (b + 1) :=
        Nat.le_mul_of_pos_right _ (Nat.pos_pow_of_pos _ (by norm_num))
      omega
    | error e =>
      simp only []
      omega

/-- An all-failing `start`-shaped retry loop surfaces the error of the
final, `(b+1)`-th, attempt. -/
theorem retryStart_allfail {ε α : Type} (eS : Nat → ε) (u : Nat → Nat) :
    ∀ (b i d : Nat),
      (retryStart (fun j => (Except.error (eS j) : Except ε α)) u b i d).1 =
        RetryOut.surfaced (eS (i + b)) ∧
      (retryStart (fun j => (Except.error (eS j) : Except ε α)) u b i d).2.1 =
        b + 1 := by
  intro b
  induction b with
  | zero => intro i d; exact ⟨rfl, rfl⟩
  | succ b ih =>
    intro i d
    have h := ih (i + 1) (2 * d)
    unfold retryStart
    simp only []
    refine ⟨?_, by omega⟩
    rw [h.1]
    have : i + 1 + b = i + (b + 1) := by omega
    rw [this]

/-- A `run`-shaped retry loop with budget `b + 1` makes at most `b + 1`
attempts (the panic after the failure that exhausts the budget precludes
a further attempt). -/
theorem retryRun_attempts_le {ε α : Type} (op : Nat → Except ε (Option α))
    (u : Nat → Nat) :
    ∀ (b i d : Nat), (retryRun op u (b + 1) i d).2.1 ≤ b + 1 := by
  intro b
  induction b with
  | zero =>
    intro i d
    unfold retryRun
    cases hop : op i with
    | ok a => cases a <;> simp
    | error e => simp
  | succ b ih =>
    intro i d
    unfold retryRun
    cases hop : op i with
    | ok a => cases a <;> simp
    | error e =>
      have h := ih (i + 1) (2 * d)
      simp only []
      omega

/-- A `run`-shaped retry loop with positive delay also sleeps less than
`2·d·2^b` in total. -/
theorem retryRun_sleep_le {ε α : Type} (op : Nat → Except ε (Option α))
    (u : Nat → Nat) :
    ∀ (b i d : Nat), 0 < d →
      (retryRun op u b i d).2.2 + 2 * d ≤ 2 * d * 2 ^ b := by
  intro b
  induction b with
  | zero =>
    intro i d hd
    unfold retryRun
    cases op i with
    | ok a => cases a <;> simp
    | error e => simp
  | succ b ih =>
    intro i d hd
    have hm : u i % d < d := Nat.mod_lt _ hd
    match b with
    | 0 =>
      unfold retryRun
      cases op i with
      | ok a => cases a <;> simp [pow_succ] <;> omega
      | error e => simp [pow_succ]; omega
    | b' + 1 =>
      have ih' := ih (i + 1) (2 * d) (by omega)
      unfold retryRun
      cases op i with
      | ok a =>
        have hp : 2 * d ≤ 2 * d * 2 ^ (b' + 1 + 1) :=
          Nat.le_mul_of_pos_right _ (Nat.pos_pow_of_pos _ (by norm_num))
        cases a <;> simp <;> omega
      | error e =>
        simp only []
        rw [show (2 : Nat) * d * 2 ^ (b' + 1 + 1) = 2 * (2 * d) * 2 ^ (b' + 1)
          by ring]
        omega

/-- An all-failing `run`-shaped retry loop with budget `b + 1` panics
after exactly `b + 1` attempts; the error-surfacing arm is unreachable. -/
theorem retryRun_allfail {ε α : Type} (eR : Nat → ε) (u : Nat → Nat) :
    ∀ (b i d : Nat),
      (retryRun (fun j => (Except.error (eR j) : Except ε (Option α)))
          u (b + 1) i d).1 = RetryOut.panicked ∧
      (retryRun (fun j => (Except.error (eR j) : Except ε (Option α)))
          u (b + 1) i d).2.1 = b + 1 := by
  intro b
  induction b with
  | zero => intro i d; exact ⟨rfl, rfl⟩
  | succ b ih =>
    intro i d
    have h := ih (i + 1) (2 * d)
    unfold retryRun
    simp only []
    exact ⟨h.1, by omega⟩

/--
Claim C4 (counterexample).  At the work-loop call sites (`run`'s broker
read and KV read loops), when every attempt fails the driver PANICS with
"failed to read the message from Kafka after all retries" after only 5
attempts, because the `if retries >= max_retries` check inside the loop
body fires right after the fifth failed attempt's sleep; the error is
never surfaced and no sixth attempt is made, contradicting the claim that
"when every attempt fails the error is surfaced after the final attempt".
-/
theorem run_retry_allfail_panics :
    (retryRun
        (fun _ => (Except.error Errors.NoKafkaMessage :
          Except Errors (Option Str)))
        (fun _ => 0) 5 0 10).1 = RetryOut.panicked ∧
    (retryRun
        (fun _ => (Except.error Errors.NoKafkaMessage :
          Except Errors (Option Str)))
        (fun _ => 0) 5 0 10).2.1 = 5 := by
  decide

/--
Claim C4 (amended).  For the two bootstrap call sites in `start` (shape
`retryStart`, budget 5, base delay 10 ms): at most 6 attempts are made,
and when every attempt fails the 6th attempt's error is surfaced after
exactly 6 attempts.  For the two work-loop call sites in `run` (shape
`retryRun`, same parameters): at most 5 attempts are made, and when every
attempt fails the driver panics after exactly 5 attempts instead of
surfacing the error.  At all four sites the total simulated sleep is at
most `Σ_{i=0}^{4} 2·10·2^i = 620` ms, because each jittered sleep
`delay + U(0, delay)` is below twice the current delay and the delay
doubles after each sleep.
-/
theorem retry_attempt_and_sleep_bounds :
    ∀ (u : Nat → Nat) (opS : Nat → Except Errors Unit)
      (opR : Nat → Except Errors (Option Str)) (eS eR : Nat → Errors),
      (retryStart opS u 5 0 10).2.1 ≤ 6 ∧
      (retryStart opS u 5 0 10).2.2 ≤ 620 ∧
      (retryStart (fun j => (Except.error (eS j) : Except Errors Unit))
          u 5 0 10).1 = RetryOut.surfaced (eS 5) ∧
      (retryStart (fun j => (Except.error (eS j) : Except Errors Unit))
          u 5 0 10).2.1 = 6 ∧
      (retryRun opR u 5 0 10).2.1 ≤ 5 ∧
      (retryRun opR u 5 0 10).2.2 ≤ 620 ∧
      (retryRun (fun j => (Except.error (eR j) : Except Errors (Option Str)))
          u 5 0 10).1 = RetryOut.panicked ∧
      (retryRun (fun j => (Except.error (eR j) : Except Errors (Option Str)))
          u 5 0 10).2.1 = 5 := by
  intro u opS opR eS eR
  have hs1 := retryStart_attempts_le opS u 5 0 10
  have hs2 := retryStart_sleep_le opS u 5 0 10 (by norm_num)
  have hs3 := retryStart_allfail (α := Unit) eS u 5 0 10
  have hr1 := retryRun_attempts_le opR u 4 0 10
  have hr2 := retryRun_sleep_le opR u 5 0 10 (by norm_num)
  have hr3 := retryRun_allfail (α := Str) eR u 4 0 10
  refine ⟨hs1, by norm_num at hs2; omega, hs3.1, hs3.2, hr1, ?_, hr3.1, hr3.2⟩
  norm_num at hr2
  omega

/-- Every single `File` operation preserves the degenerate reachable
shape: faults and the `max_file_size = 0` rejection leave everything but
the PRNG alone, and the only write the size check lets through is the
empty one. -/
theorem applyOp_strongInv :
    ∀ (st : SimFile) (op : FileOp) (st' : SimFile),
      StrongInv st → applyOp st op = some st' → StrongInv st' := by
  intro st op st' h hap
  obtain ⟨hc, hs, hsz, hmx, hrp, hwp⟩ := h
  cases op with
  | fread n =>
    by_cases hb : (genBool st.rng).1
    · simp [applyOp, SimFile.read, hb] at hap
      rw [← hap]
      exact ⟨hc, hs, hsz, hmx, hrp, hwp⟩
    · simp only [applyOp, SimFile.read, hb, Bool.false_eq_true, if_false] at hap
      rw [if_neg (by rw [hc]; simp)] at hap
      cases hap
  | fwrite s =>
    by_cases hb : (genBool st.rng).1
    · simp [applyOp, SimFile.write, hb] at hap
      rw [← hap]
      exact ⟨hc, hs, hsz, hmx, hrp, hwp⟩
    · cases s with
      | nil =>
        simp only [applyOp, SimFile.write, hb, Bool.false_eq_true, if_false,
          List.length_nil, Nat.add_zero] at hap
        rw [if_neg (by omega), if_pos (by omega)] at hap
        simp only [Option.some.injEq] at hap
        rw [← hap]
        exact ⟨by simp [writeAt, hc], hs, hsz, hmx, hrp, hwp⟩
      | cons a as =>
        simp only [applyOp, SimFile.write, hb, Bool.false_eq_true, if_false] at hap
        rw [if_pos (by rw [hsz, hmx]; simp)] at hap
        simp only [Option.some.injEq] at hap
        rw [← hap]
        exact ⟨hc, hs, hsz, hmx, hrp, hwp⟩
  | ffsync =>
    simp only [applyOp, SimFile.fsync, Option.some.injEq] at hap
    rw [← hap]
    exact ⟨hc, hc, hsz, hmx, hrp, hwp⟩
  | ftail n =>
    simp only [applyOp, SimFile.read_last_n_entries, Option.some.injEq] at hap
    rw [← hap]
    exact ⟨hc, hs, hsz, hmx, hrp, hwp⟩

/-- The degenerate shape is preserved by every non-panicking operation
sequence. -/
theorem runOps_strongInv :
    ∀ (ops : List FileOp) (st st' : SimFile),
      StrongInv st → runOps st ops = some st' → StrongInv st' := by
  intro ops
  induction ops with
  | nil =>
    intro st st' h hr
    simp only [runOps, Option.some.injEq] at hr
    rw [← hr]; exact h
  | cons op ops ih =>
    intro st st' h hr
    simp only [runOps] at hr
    cases hap : applyOp st op with
    | none => rw [hap] at hr; cases hr
    | some st1 =>
      rw [hap] at hr
      exact ih st1 st' (applyOp_strongInv st op st1 h hap) hr

/--
Claim C9 (confirmed).  After every sequence of `SimulatedFile` operations
from the constructed state (each operation returning `Ok` or `Err`, the
program having aborted otherwise), `current_file_size` equals the length
of the unsynced `file_contents` buffer, and the durable `synced_contents`
are a prefix of `file_contents` (the snapshot taken at the last fsync).
The invariant holds in the degenerate way the code forces: with
`max_file_size = 0` no operation can ever change the buffers or sizes, so
both sides stay at their initial empty/zero values.
-/
theorem sim_file_size_and_sync_invariant :
    ∀ (r : Rng) (ops : List FileOp) (st : SimFile),
      runOps (SimFile.new r) ops = some st →
      st.current_file_size = st.file_contents.length ∧
      st.synced_contents = st.file_contents.take st.synced_contents.length := by
  intro r ops st h
  have hinv : StrongInv st :=
    runOps_strongInv ops (SimFile.new r) st ⟨rfl, rfl, rfl, rfl, rfl, rfl⟩ h
  obtain ⟨hc, hs, hsz, -, -, -⟩ := hinv
  constructor
  · rw [hc, hsz]; rfl
  · rw [hc, hs]; rfl

/-- Claim C9 (witness): a concrete operation run — an (empty) write, an
fsync and a tail read — ends in a state satisfying the invariant. -/
theorem sim_file_size_and_sync_invariant_witness :
    runOps (SimFile.new rngQuiet)
        [FileOp.fwrite [], FileOp.ffsync, FileOp.ftail 5] =
      some (SimFile.new rngQuiet).bump ∧
    ((SimFile.new rngQuiet).bump.current_file_size =
      (SimFile.new rngQuiet).bump.file_contents.length ∧
     (SimFile.new rngQuiet).bump.synced_contents =
      (SimFile.new rngQuiet).bump.file_contents.take
        (SimFile.new rngQuiet).bump.synced_contents.length) :=
  ⟨rfl,
   sim_file_size_and_sync_invariant rngQuiet
     [FileOp.fwrite [], FileOp.ffsync, FileOp.ftail 5]
     (SimFile.new rngQuiet).bump rfl⟩
